import Mathlib

/-!
Verification of the napalm-comware-ssh driver (`napalm_comware/comware.py`)
against its natural-language specification.

The driver is shallowly embedded: each query method of `ComwareDriver`
becomes a Lean function over the already-extracted textfsm records (the
textfsm extraction engine and the SSH session are external collaborators;
their results are the inputs of the embedded functions).  Python dictionaries
become association lists preserving insertion order, Python `int()` and
crashes become `Except String`, and helpers that live outside this
repository snapshot (`parse_time`, `parse_null`, `strptime`, `mac`,
`canonical_interface_name_comware` from `utils/helpers.py` and
`napalm.base.helpers`) are either modelled from the spec or passed in as
function parameters, so every theorem quantifies over their behaviour.
-/

set_option autoImplicit false

namespace Comware

/-! ## Python string semantics -/

/-- Decides whether the character list `needle` is an initial segment of `hay`. -/
def startsWithChars : List Char → List Char → Bool
  | [], _ => true
  | _ :: _, [] => false
  | c :: cs, d :: ds => c == d && startsWithChars cs ds

/-- Decides whether the character list `needle` occurs contiguously inside `hay`. -/
def hasSubChars (needle : List Char) : List Char → Bool
  | [] => needle.isEmpty
  | d :: ds => startsWithChars needle (d :: ds) || hasSubChars needle ds

/-- Python's substring test `needle in hay` on strings. -/
def pyContains (hay needle : String) : Bool :=
  hasSubChars needle.data hay.data

/-- ASCII lowercasing of one character (the fragment of Python's `lower()`
exercised by the device status strings, which are ASCII). -/
def charLower (c : Char) : Char :=
  if 'A' ≤ c ∧ c ≤ 'Z' then Char.ofNat (c.toNat + 32) else c

/-- Python's `s.lower()`. -/
def pyLower (s : String) : String :=
  ⟨s.data.map charLower⟩

/-- Reads a nonempty run of decimal digits as a natural number. -/
def digitsToNat (acc : Nat) : List Char → Option Nat
  | [] => some acc
  | c :: cs =>
      if c.isDigit then digitsToNat (acc * 10 + (c.toNat - 48)) cs else none

/-- Parses a decimal integer literal: an optional sign followed by at least
one digit (the strings Python's `int()` accepts, modulo surrounding
whitespace, which none of the device fields carry). -/
def parseIntLit (s : String) : Option Int :=
  match s.data with
  | [] => none
  | '-' :: cs => if cs.isEmpty then none else (digitsToNat 0 cs).map (fun n => -(n : Int))
  | '+' :: cs => if cs.isEmpty then none else (digitsToNat 0 cs).map (fun n => (n : Int))
  | cs => (digitsToNat 0 cs).map (fun n => (n : Int))

/-- Python's `int(s)` on a string: the parsed integer, or a `ValueError` crash. -/
def pyInt (s : String) : Except String Int :=
  match parseIntLit s with
  | some n => Except.ok n
  | none => Except.error ("ValueError: invalid literal for int(): " ++ s)

/-! ## Python dict semantics (insertion-ordered association lists) -/

/-- Python dict assignment `d[k] = v`: replaces the value in place if the key
is present, appends a new binding otherwise. -/
def alistSet {κ α : Type} [DecidableEq κ] (d : List (κ × α)) (k : κ) (v : α) :
    List (κ × α) :=
  match d with
  | [] => [(k, v)]
  | (k', v') :: rest => if k' = k then (k, v) :: rest else (k', v') :: alistSet rest k v

/-- Python dict lookup `d.get(k)`: the value at the first (unique) binding of
`k`, or `None`. -/
def alistGet {κ α : Type} [DecidableEq κ] : List (κ × α) → κ → Option α
  | [], _ => none
  | (k', v) :: rest, k => if k' = k then some v else alistGet rest k

/-! ## get_vlans (comware.py lines 449-483)

A raw record carries the textfsm fields of one VLAN of `display vlan all`;
`get_vlans` keys the result dict by `int(vlan_id)` and resolves the canonical
name with the expression on line 480. -/

/-- One textfsm record of `display vlan all`. -/
structure VlanRaw where
  vlan_id : String
  name : String
  description : String
  interfaces : List String
deriving DecidableEq, Repr

/-- One value of the dict returned by `get_vlans`. -/
structure VlanEntry where
  name : String
  interfaces : List String
deriving DecidableEq, Repr

/-- The name-resolution expression of comware.py line 480:
`vlan_desc if "VLAN " not in vlan_desc and "VLAN " in vlan_name else vlan_name`. -/
def vlan_canonical_name (vlan_name vlan_desc : String) : String :=
  if !pyContains vlan_desc "VLAN " && pyContains vlan_name "VLAN " then vlan_desc
  else vlan_name

/-- `ComwareDriver.get_vlans`, embedded over the extracted records. -/
def get_vlans (structured_output : List VlanRaw) :
    Except String (List (Int × VlanEntry)) :=
  structured_output.foldlM
    (fun vlans vlan_entry => do
      let vid ← pyInt vlan_entry.vlan_id
      Except.ok (alistSet vlans vid
        { name := vlan_canonical_name vlan_entry.name vlan_entry.description,
          interfaces := vlan_entry.interfaces }))
    []

/-- The VLAN naming rule in the spec's words: use the description exactly when
the description does not contain `"VLAN "` and the name does contain
`"VLAN "`; otherwise use the name. -/
def vlanNameSpec (name description : String) : String :=
  if pyContains description "VLAN " = false ∧ pyContains name "VLAN " = true then
    description
  else name

/-! ## Claim theorems for get_vlans -/

/-- C3 counterexample: the claim says the record with name `"VLAN0002"` and
description `"Uplink"` yields canonical name `"Uplink"`, but `"VLAN0002"` does
not contain the substring `"VLAN "` (with a space), so line 480 keeps the
name: `get_vlans` yields `"VLAN0002"`, not `"Uplink"`. -/
theorem C3_vlan_naming_counterexample :
    get_vlans [⟨"2", "VLAN0002", "Uplink", []⟩]
      = Except.ok [(2, ⟨"VLAN0002", []⟩)]
    ∧ vlan_canonical_name "VLAN0002" "Uplink" ≠ "Uplink" := by
  constructor
  · rfl
  · decide

/-- C3 (amended): a VLAN record with name `"VLAN0002"` and description
`"Uplink"` yields canonical name `"VLAN0002"` (the name, because `"VLAN0002"`
lacks the substring `"VLAN "`), and a record with name `"VLAN0002"` and
description `"VLAN 0002"` also yields `"VLAN0002"`. -/
theorem C3_vlan_naming_amended :
    get_vlans [⟨"2", "VLAN0002", "Uplink", []⟩]
      = Except.ok [(2, ⟨"VLAN0002", []⟩)]
    ∧ get_vlans [⟨"2", "VLAN0002", "VLAN 0002", []⟩]
      = Except.ok [(2, ⟨"VLAN0002", []⟩)] :=
  ⟨rfl, rfl⟩

/-- C4: for every VLAN record, `get_vlans` chooses the description as the
canonical name exactly when the description does not contain `"VLAN "` and
the name does contain `"VLAN "`; in every other case it chooses the name.
The second conjunct ties the per-record rule to the full `get_vlans` output. -/
theorem C4_vlan_name_choice :
    (∀ name description, vlan_canonical_name name description
        = vlanNameSpec name description)
    ∧ (∀ name description ifs, get_vlans [⟨"1", name, description, ifs⟩]
        = Except.ok [(1, ⟨vlan_canonical_name name description, ifs⟩)]) := by
  constructor
  · intro name description
    by_cases hd : pyContains description "VLAN " <;>
      by_cases hn : pyContains name "VLAN " <;>
        simp [vlan_canonical_name, vlanNameSpec, hd, hn]
  · intro name description ifs
    rfl

/-! ## Value normalizers from the helper module

The helper module `napalm_comware/utils/helpers.py` is not part of this
repository snapshot; `parse_null` is modelled from the spec, and the duration
parser `parse_time`, the MAC normalizer `mac` and the interface-name
canonicalizer are taken as function parameters, so the theorems hold for
every behaviour of the missing helpers. -/

/-- Modelled from the spec: `parseWithDefault(text, defaultValue, converter)`
(`parse_null` in the source's helper module, which is missing from this
snapshot) applies `converter` to `text`; if `text` denotes "no value" (a
vendor-specific placeholder, decided here by the parameter `isNull`) or the
converter fails, it returns `defaultValue`. -/
def parse_null {α : Type} (isNull : String → Bool) (text : String)
    (dflt : α) (conv : String → Option α) : α :=
  if isNull text then dflt
  else
    match conv text with
    | some v => v
    | none => dflt

/-! ## get_interfaces (comware.py lines 155-193) -/

/-- One textfsm record of `display interface`. -/
structure IfaceRaw where
  interface : String
  link_status : String
  protocol_status : String
  description : String
  bandwidth : String
  mtu : String
  mac_address : String
  last_flapping : String
deriving DecidableEq, Repr

/-- One value of the dict returned by `get_interfaces`. -/
structure IfaceEntry where
  is_enabled : Bool
  is_up : Bool
  description : String
  speed : Int
  mtu : Int
  mac_address : String
  last_flapped : Int
deriving DecidableEq, Repr

/-- The per-record body of the `get_interfaces` loop (comware.py lines
159-192): `is_enabled`/`is_up` by the case-insensitive substring test for
`"up"`, `last_flapped` by the `"never"` marker then `parse_null` with
sentinel `-1`, and the remaining fields through `parse_null`.  `isNull`
decides the vendor null placeholders, `pt` is `parse_time` (seconds, `none`
on failure), `mc` is the external `mac` normalizer (`none` on failure). -/
def interface_entry (isNull : String → Bool) (pt : String → Option Int)
    (mc : String → Option String) (r : IfaceRaw) : IfaceEntry :=
  { is_enabled := pyContains (pyLower r.link_status) "up",
    is_up := pyContains (pyLower r.protocol_status) "up",
    description := r.description,
    speed := parse_null isNull r.bandwidth (-1) parseIntLit,
    mtu := parse_null isNull r.mtu (-1) parseIntLit,
    mac_address := parse_null isNull r.mac_address "unknown" mc,
    last_flapped :=
      if pyContains (pyLower r.last_flapping) "never" then 0
      else parse_null isNull r.last_flapping (-1) pt }

/-- `ComwareDriver.get_interfaces`, embedded over the extracted records. -/
def get_interfaces (isNull : String → Bool) (pt : String → Option Int)
    (mc : String → Option String) (structured_output : List IfaceRaw) :
    List (String × IfaceEntry) :=
  structured_output.foldl
    (fun acc r => alistSet acc r.interface (interface_entry isNull pt mc r)) []

/-- The last-flapped rule in the spec's words: the `"never"` marker
(case-insensitive) maps to `0`; otherwise a null placeholder or a failed
duration parse maps to `-1`; otherwise the parsed duration in seconds. -/
def lastFlappedSpec (isNull : String → Bool) (pt : String → Option Int)
    (raw : String) : Int :=
  if pyContains (pyLower raw) "never" then 0
  else if isNull raw then -1
  else
    match pt raw with
    | some v => v
    | none => -1

/-! ## Claim theorems for get_interfaces -/

/-- C5: for every interface record, `is_enabled` is exactly the
case-insensitive substring test for `"up"` on the physical link status and
`is_up` the same test on the protocol status; concretely, `is_enabled` is
false for `"Administratively DOWN"`, true for `"UP"`, and `is_up` is true
for `"UP (spoofing)"`. -/
theorem C5_up_down_classification :
    (∀ (isNull : String → Bool) (pt : String → Option Int)
        (mc : String → Option String) (r : IfaceRaw),
      (interface_entry isNull pt mc r).is_enabled
          = pyContains (pyLower r.link_status) "up"
        ∧ (interface_entry isNull pt mc r).is_up
          = pyContains (pyLower r.protocol_status) "up")
    ∧ (interface_entry (fun _ => false) (fun _ => none) (fun _ => none)
        ⟨"GE1/0/1", "Administratively DOWN", "DOWN", "", "1000", "1500",
          "00e0-fc00-0001", "Never"⟩).is_enabled = false
    ∧ (interface_entry (fun _ => false) (fun _ => none) (fun _ => none)
        ⟨"GE1/0/1", "UP", "UP", "", "1000", "1500",
          "00e0-fc00-0001", "Never"⟩).is_enabled = true
    ∧ (interface_entry (fun _ => false) (fun _ => none) (fun _ => none)
        ⟨"Vlan1", "UP", "UP (spoofing)", "", "1000", "1500",
          "00e0-fc00-0001", "Never"⟩).is_up = true := by
  refine ⟨fun isNull pt mc r => ⟨rfl, rfl⟩, ?_, ?_, ?_⟩ <;> decide

/-- C6: for every interface record, the canonical `last_flapped` is `0` when
the raw text contains the `"never"` marker case-insensitively, `-1` when the
raw text is a null placeholder or duration parsing fails, and the parsed
duration in seconds otherwise — for every placeholder predicate and every
duration parser. -/
theorem C6_last_flapped_sentinels :
    ∀ (isNull : String → Bool) (pt : String → Option Int)
      (mc : String → Option String) (r : IfaceRaw),
      (interface_entry isNull pt mc r).last_flapped
        = lastFlappedSpec isNull pt r.last_flapping := by
  intro isNull pt mc r
  cases hn : pyContains (pyLower r.last_flapping) "never" <;>
    cases hnl : isNull r.last_flapping <;>
      cases hpt : pt r.last_flapping <;>
        simp [interface_entry, lastFlappedSpec, parse_null, hn, hnl, hpt]

/-! ## get_facts (comware.py lines 95-153)

The defaults line of the source (line 99) is
`serial_number, fqdn, os_version, hostname, fqdn = ("Unknown",) * 5` —
it binds `fqdn` twice and never binds `model`, so `model` is only assigned
inside the `len(...) == 1` branch of the `display version` section and the
final dict literal raises `UnboundLocalError` whenever that branch is
skipped.  The embedding keeps `model` as an `Option` that is `none` exactly
when the source leaves the local unbound. -/

/-- One textfsm record of `display device manuinfo`. -/
structure SlotRecord where
  slot_type : String
  serial_number : String
deriving DecidableEq, Repr

/-- The serial-collecting loop of comware.py lines 132-138: keep the serial
of every record whose slot type is `"Slot"` and whose serial is non-empty,
in order of appearance. -/
def collect_slot_sns : List SlotRecord → List String
  | [] => []
  | r :: rs =>
      if r.slot_type == "Slot" && r.serial_number != "" then
        r.serial_number :: collect_slot_sns rs
      else collect_slot_sns rs

/-- The serial-number section of `get_facts` (comware.py lines 129-142):
starting from the default `"Unknown"`, a non-empty record list is reduced to
the comma-join of the qualifying serials, or back to `"Unknown"` when none
qualify. -/
def serial_from_slots (structured_sn : List SlotRecord) : String :=
  if structured_sn.length > 0 then
    let sns := collect_slot_sns structured_sn
    if sns.length > 0 then String.intercalate "," sns else "Unknown"
  else "Unknown"

/-- The serial aggregation rule in the spec's words: filter the records to
those with slot type `"Slot"` and a non-empty serial, join the surviving
serials with a comma, and fall back to the literal `"Unknown"` when no record
qualifies. -/
def serialAggSpec (slots : List SlotRecord) : String :=
  let q := (slots.filter fun r => r.slot_type == "Slot" && r.serial_number != "").map
    (fun r => r.serial_number)
  if q = [] then "Unknown" else String.intercalate "," q

/-- One textfsm record of `display version`. -/
structure SysRaw where
  uptime : String
  vendor : String
  model : String
  os_version : String
deriving DecidableEq, Repr

/-- The record returned by `get_facts`. -/
structure Facts where
  uptime : Int
  vendor : String
  os_version : String
  serial_number : String
  model : String
  hostname : String
  fqdn : String
  interface_list : List String
deriving DecidableEq, Repr

/-- `ComwareDriver.get_facts`, embedded over the extraction results of its
commands plus the device prompt.  `pt` is the missing helper `parse_time`
(taken total here; the `model` crash below is independent of it).  The
`hostname` is the prompt with its first and last character stripped
(`find_prompt()[1:-1]`).  When the `display version` extraction does not
yield exactly one record, the source leaves the local `model` unbound and
the final dict literal raises `UnboundLocalError`. -/
def get_facts (pt : String → Int) (structured_sys_info : List SysRaw)
    (prompt : String) (structured_int_info : List IfaceRaw)
    (structured_sn : List SlotRecord) : Except String Facts :=
  let defaults : Int × String × String × Option String :=
    (-1, "Comware", "Unknown", none)
  let parsed : Int × String × String × Option String :=
    match structured_sys_info with
    | [r] => (pt r.uptime, r.vendor, r.os_version, some r.model)
    | _ => defaults
  match parsed with
  | (uptime, vendor, os_version, model?) =>
    match model? with
    | none =>
        Except.error "UnboundLocalError: local variable model referenced before assignment"
    | some model =>
        Except.ok
          { uptime := uptime, vendor := vendor, os_version := os_version,
            serial_number := serial_from_slots structured_sn, model := model,
            hostname := (prompt.drop 1).dropRight 1, fqdn := "Unknown",
            interface_list := structured_int_info.map (fun i => i.interface) }

/-! ## Claim theorems for get_facts -/

/-- C2 fails on the code: with zero (or two) records extracted from
`display version`, `get_facts` crashes with `UnboundLocalError` on `model`
instead of returning sentinel-filled fields, because the defaults line binds
`fqdn` twice and never `model`; with exactly one record it does return every
field. -/
theorem C2_facts_model_unbound :
    get_facts (fun _ => 0) [] "<Device>" [] []
      = Except.error "UnboundLocalError: local variable model referenced before assignment"
    ∧ get_facts (fun _ => 0)
        [⟨"0 weeks", "H3C", "S5130", "7.1"⟩, ⟨"0 weeks", "H3C", "S5130", "7.1"⟩]
        "<Device>" [] []
      = Except.error "UnboundLocalError: local variable model referenced before assignment"
    ∧ get_facts (fun _ => 100) [⟨"1 week", "H3C", "S5130", "Release 2612"⟩]
        "<Device>" [] [⟨"Slot", "ABC123"⟩]
      = Except.ok
          { uptime := 100, vendor := "H3C", os_version := "Release 2612",
            serial_number := "ABC123", model := "S5130", hostname := "Device",
            fqdn := "Unknown", interface_list := [] } :=
  ⟨rfl, rfl, rfl⟩

/-- C7: for every slot-record list, the canonical serial number computed by
`get_facts` is the comma-join of the serials of exactly the records with slot
type `"Slot"` and a non-empty serial, in order, with `"Unknown"` when none
qualify; the concrete record list of the claim yields `"ABC123"`, and the
value feeds the `serial_number` field of `get_facts` unchanged. -/
theorem C7_serial_aggregation :
    (∀ slots, serial_from_slots slots = serialAggSpec slots)
    ∧ serial_from_slots [⟨"Slot", "ABC123"⟩, ⟨"Slot", ""⟩, ⟨"Power", "XYZ"⟩]
        = "ABC123"
    ∧ (∀ slots pt, get_facts pt [⟨"u", "v", "m", "o"⟩] "<h>" [] slots
        = Except.ok
            { uptime := pt "u", vendor := "v", os_version := "o",
              serial_number := serial_from_slots slots, model := "m",
              hostname := "h", fqdn := "Unknown", interface_list := [] }) := by
  refine ⟨?_, by decide, fun slots pt => rfl⟩
  intro slots
  have hc : collect_slot_sns slots
      = (slots.filter fun r => r.slot_type == "Slot" && r.serial_number != "").map
          (fun r => r.serial_number) := by
    induction slots with
    | nil => rfl
    | cons r rs ih =>
        by_cases h : (r.slot_type == "Slot" && r.serial_number != "") = true <;>
          simp [collect_slot_sns, List.filter, h, ih]
  cases slots with
  | nil => rfl
  | cons r rs =>
      simp only [serial_from_slots, serialAggSpec, hc]
      have hlen : (r :: rs).length > 0 := Nat.succ_pos rs.length
      simp only [if_pos hlen]
      rcases hq : (List.filter (fun r => r.slot_type == "Slot" && r.serial_number != "")
          (r :: rs)).map (fun r => r.serial_number) with _ | ⟨a, q⟩
      · simp [hq]
      · simp [hq]

/-! ## get_mac_address_table / get_mac_address_move_table (comware.py 373-426)

The move-table entries are Python dicts, embedded as ordered key/value lists
over a small value type, because the claim hinges on which string keys the
dicts carry: `get_mac_address_move_table` stores its fields under the keys
`"mac"` and `"moves"`, while the nested `_get_mac_move` looks up
`"mac_address"` and `"times"`.  Floats (`float(-1)` and the `strptime`
result) are embedded as rationals. -/

/-- A Python value stored in a move-table dict. -/
inductive PyVal where
  | str (s : String)
  | int (n : Int)
deriving DecidableEq, Repr

/-- A Python dict with string keys, as built by dict literals. -/
abbrev PyDict := List (String × PyVal)

/-- One textfsm record of `display mac-address mac-move`. -/
structure MacMoveRaw where
  mac_address : String
  vlan : String
  current_port : String
  source_port : String
  last_move : String
  times : String
deriving DecidableEq, Repr

/-- One textfsm record of `display mac-address`. -/
structure MacRaw where
  mac_address : String
  vlan : String
  state : String
  interface : String
deriving DecidableEq, Repr

/-- One entry of the list returned by `get_mac_address_table`. -/
structure MacEntry where
  mac : String
  interface : String
  vlan : Int
  static : Bool
  state : String
  active : Bool
  last_move : Rat
  moves : Int
deriving DecidableEq, Repr

/-- The dict literal of comware.py lines 381-388: one canonical move-table
entry.  `macNorm` is the external `napalm.base.helpers.mac` normalizer and
`canon` the external `canonical_interface_name_comware`. -/
def moveTableEntry (macNorm canon : String → String) (r : MacMoveRaw) :
    Except String PyDict := do
  let v ← pyInt r.vlan
  let t ← pyInt r.times
  Except.ok
    [("mac", PyVal.str (macNorm r.mac_address)),
     ("vlan", PyVal.int v),
     ("current_port", PyVal.str (canon r.current_port)),
     ("source_port", PyVal.str (canon r.source_port)),
     ("last_move", PyVal.str r.last_move),
     ("moves", PyVal.int t)]

/-- `ComwareDriver.get_mac_address_move_table`, embedded over the extracted
records. -/
def get_mac_address_move_table (macNorm canon : String → String)
    (structured_output : List MacMoveRaw) : Except String (List PyDict) :=
  structured_output.mapM (moveTableEntry macNorm canon)

/-- The values merged into a primary MAC entry by `_get_mac_move`. -/
structure MoveInfo where
  last_move : Rat
  moves : Int
deriving DecidableEq, Repr

/-- Python's `==` between the string `s` and a dict lookup result (`None` or
a stored value): `False` against `None` and against non-string values. -/
def pyEqStrOpt (s : String) : Option PyVal → Bool
  | some (PyVal.str t) => s == t
  | _ => false

/-- The nested helper `_get_mac_move` of comware.py lines 399-409: starting
from the sentinels `last_move = float(-1)`, `moves = -1`, it scans the move
table and, on a match of the primary MAC against the entry's `"mac_address"`
key, overwrites both fields from the entry's `"last_move"` and `"times"`
keys (`strptime` is the external timestamp parser; a non-string or missing
value under those keys is a `TypeError` crash). -/
def _get_mac_move (strptime : String → Rat) (mac_address : String)
    (mac_address_move_table : List PyDict) : Except String MoveInfo :=
  mac_address_move_table.foldlM
    (fun acc mac_move =>
      if pyEqStrOpt mac_address (alistGet mac_move "mac_address") then do
        let lm ←
          match alistGet mac_move "last_move" with
          | some (PyVal.str s) => Except.ok (strptime s)
          | _ => Except.error "TypeError: strptime() argument must be str"
        let mv ←
          match alistGet mac_move "times" with
          | some (PyVal.int n) => Except.ok n
          | some (PyVal.str s) => pyInt s
          | none => Except.error "TypeError: int() argument must not be None"
        Except.ok { last_move := lm, moves := mv }
      else Except.ok acc)
    { last_move := -1, moves := -1 }

/-- `ComwareDriver.get_mac_address_table`, embedded over the extracted
records of both commands: it materializes the move table, then builds one
entry per primary record and merges in the `_get_mac_move` result. -/
def get_mac_address_table (macNorm canon : String → String)
    (strptime : String → Rat) (structured_output : List MacRaw)
    (move_raw : List MacMoveRaw) : Except String (List MacEntry) := do
  let tbl ← get_mac_address_move_table macNorm canon move_raw
  structured_output.mapM (fun r => do
    let v ← pyInt r.vlan
    let mv ← _get_mac_move strptime r.mac_address tbl
    Except.ok
      { mac := macNorm r.mac_address, interface := canon r.interface,
        vlan := v, static := pyContains (pyLower r.state) "tatic",
        state := r.state, active := true,
        last_move := mv.last_move, moves := mv.moves })

/-! ## Claim theorem for the MAC move join -/

/-- C1 fails on the code: `_get_mac_move` looks the primary MAC up under the
key `"mac_address"` (and the move count under `"times"`), but the entries
built by `get_mac_address_move_table` carry the keys `"mac"` and `"moves"`,
so the scan never matches and every primary entry receives the sentinels
`moves = -1`, `last_move = -1.0` — here even though the move table holds an
entry whose `"mac"` key equals the primary entry's MAC address exactly
(`strptime` is instantiated to return 42, which would be visible in
`last_move` if the merge ever fired). -/
theorem C1_mac_move_join_never_matches :
    get_mac_address_move_table id id
        [⟨"00:11:22:33:44:55", "10", "GE1/0/1", "GE1/0/2",
          "2023-01-01 00:00:00", "3"⟩]
      = Except.ok
          [[("mac", PyVal.str "00:11:22:33:44:55"), ("vlan", PyVal.int 10),
            ("current_port", PyVal.str "GE1/0/1"),
            ("source_port", PyVal.str "GE1/0/2"),
            ("last_move", PyVal.str "2023-01-01 00:00:00"),
            ("moves", PyVal.int 3)]]
    ∧ get_mac_address_table id id (fun _ => 42)
        [⟨"00:11:22:33:44:55", "10", "Learned", "GE1/0/1"⟩]
        [⟨"00:11:22:33:44:55", "10", "GE1/0/1", "GE1/0/2",
          "2023-01-01 00:00:00", "3"⟩]
      = Except.ok
          [{ mac := "00:11:22:33:44:55", interface := "GE1/0/1", vlan := 10,
             static := false, state := "Learned", active := true,
             last_move := -1, moves := -1 }] :=
  ⟨rfl, rfl⟩

/-! ## cli (comware.py lines 337-349) -/

/-- The argument passed to `cli`: either a Python list of command strings or
any non-list value (`type(commands) is not list` sees only the outer type,
so the payload of a non-list argument is irrelevant). -/
inductive PyArg where
  | list (cmds : List String)
  | other (txt : String)
deriving DecidableEq, Repr

/-- The command loop of comware.py lines 344-347: for each command, send it
and bind the raw output under the command string
(`setdefault` followed by assignment, i.e. insert-or-overwrite). -/
def cliLoop (dev : String → String) : List String → List (String × String) →
    List (String × String)
  | [], acc => acc
  | c :: rest, acc => cliLoop dev rest (alistSet acc c (dev c))

/-- `ComwareDriver.cli`, embedded with the device as the function from a
command to its raw text response.  The second component is the list of
commands actually sent: a non-list argument raises before any command is
sent. -/
def cli (dev : String → String) :
    PyArg → Except String (List (String × String)) × List String
  | PyArg.other _ =>
      (Except.error "TypeError: Please enter a valid list of commands!", [])
  | PyArg.list cmds => (Except.ok (cliLoop dev cmds []), cmds)

/-- Dict assignment then lookup: looking up `q` after setting `k` yields the
new value at `k` and is otherwise unchanged. -/
theorem alistGet_alistSet {α : Type} (d : List (String × α)) (k q : String)
    (v : α) :
    alistGet (alistSet d k v) q = if q = k then some v else alistGet d q := by
  induction d with
  | nil =>
      by_cases h : q = k
      · subst h; simp [alistSet, alistGet]
      · simp [alistSet, alistGet, h, Ne.symm h]
  | cons p rest ih =>
      obtain ⟨k', v'⟩ := p
      by_cases h1 : k' = k
      · subst h1
        by_cases h2 : q = k'
        · subst h2; simp [alistSet, alistGet]
        · simp [alistSet, alistGet, h2, Ne.symm h2]
      · by_cases h2 : q = k'
        · subst h2
          simp [alistSet, alistGet, h1, Ne.symm h1, ih]
        · simp [alistSet, alistGet, h1, h2, Ne.symm h2, ih]

/-- The dict built by the `cli` loop holds exactly the commands of the input
list as keys, each bound to the device's response for that command. -/
theorem alistGet_cliLoop (dev : String → String) (cmds : List String)
    (acc : List (String × String)) (q : String) :
    alistGet (cliLoop dev cmds acc) q
      = if q ∈ cmds then some (dev q) else alistGet acc q := by
  induction cmds generalizing acc with
  | nil => simp [cliLoop]
  | cons c rest ih =>
      rw [cliLoop, ih, alistGet_alistSet]
      by_cases h1 : q ∈ rest <;> by_cases h2 : q = c <;>
        simp [h1, h2, List.mem_cons]

/-! ## Claim theorem for cli -/

/-- C8: `cli` fails on every non-list argument without sending any command
(the spec's `InvalidArgumentError`, a `TypeError` in the source), and on
every list argument it sends exactly the listed commands and returns a
mapping whose keys are exactly the input command strings, each bound to that
command's raw response; concretely, `cli (list ["show x"])` returns the
mapping with exactly the key `"show x"`. -/
theorem C8_cli_list_check :
    (∀ (dev : String → String) (t : String),
      cli dev (PyArg.other t)
        = (Except.error "TypeError: Please enter a valid list of commands!", []))
    ∧ (∀ (dev : String → String) (cmds : List String),
        cli dev (PyArg.list cmds) = (Except.ok (cliLoop dev cmds []), cmds))
    ∧ (∀ (dev : String → String) (cmds : List String) (q : String),
        alistGet (cliLoop dev cmds []) q
          = if q ∈ cmds then some (dev q) else none)
    ∧ (∀ dev : String → String,
        cli dev (PyArg.list ["show x"])
          = (Except.ok [("show x", dev "show x")], ["show x"])) := by
  refine ⟨fun dev t => rfl, fun dev cmds => rfl, ?_, fun dev => rfl⟩
  intro dev cmds q
  rw [alistGet_cliLoop]
  rfl

/-! ## get_irf_config / is_irf (comware.py lines 485-520) -/

/-- One textfsm record of
`display current-configuration configuration irf-port`. -/
structure IrfRaw where
  member_id : String
  port_id : String
  port_member : List String
deriving DecidableEq, Repr

/-- The nested IRF structure: member ID to (irf-port name to port members). -/
abbrev IrfConfig := List (Int × List (String × List String))

/-- One iteration of the `get_irf_config` loop (comware.py lines 505-509):
`irf_config[int(member_id)]["irf-port%s" % port_id] = port_member`, with the
`defaultdict(dict)` conjuring an empty inner dict for an unseen member. -/
def irfStep (irf_config : IrfConfig) (r : IrfRaw) : Except String IrfConfig := do
  let m ← pyInt r.member_id
  let inner := (alistGet irf_config m).getD []
  Except.ok (alistSet irf_config m
    (alistSet inner ("irf-port" ++ r.port_id) r.port_member))

/-- `ComwareDriver.get_irf_config`, embedded over the extracted records. -/
def get_irf_config (structured_output : List IrfRaw) :
    Except String IrfConfig :=
  structured_output.foldlM irfStep []

/-- `ComwareDriver.is_irf` (the boolean inside the returned
`{"is_irf": ...}` dict): the truthiness of the `get_irf_config` mapping. -/
def is_irf (structured_output : List IrfRaw) : Except String Bool :=
  match get_irf_config structured_output with
  | Except.ok config => Except.ok (!config.isEmpty)
  | Except.error e => Except.error e

/-! ## Claim theorem for is_irf -/

/-- C9: whenever `get_irf_config` returns a non-empty mapping, `is_irf`
reports true, and whenever it returns an empty mapping, `is_irf` reports
false. -/
theorem C9_is_irf_nonempty (structured_output : List IrfRaw)
    (config : IrfConfig)
    (h : get_irf_config structured_output = Except.ok config) :
    (config ≠ [] → is_irf structured_output = Except.ok true)
    ∧ (config = [] → is_irf structured_output = Except.ok false) := by
  constructor
  · intro hne
    simp [is_irf, h, List.isEmpty_iff, hne]
  · intro he
    simp [is_irf, h, he]

/-- Witness for C9 at concrete inputs: one IRF record makes the config
non-empty and `is_irf` true; no record leaves it empty and `is_irf` false. -/
theorem C9_is_irf_nonempty_witness :
    (get_irf_config [⟨"1", "1", ["FortyGigE1/0/53"]⟩]
        = Except.ok [(1, [("irf-port1", ["FortyGigE1/0/53"])])]
      ∧ is_irf [⟨"1", "1", ["FortyGigE1/0/53"]⟩] = Except.ok true)
    ∧ (get_irf_config [] = Except.ok []
      ∧ is_irf [] = Except.ok false) := by
  refine ⟨⟨rfl, ?_⟩, ⟨rfl, ?_⟩⟩
  · exact (C9_is_irf_nonempty [⟨"1", "1", ["FortyGigE1/0/53"]⟩]
      [(1, [("irf-port1", ["FortyGigE1/0/53"])])] rfl).1 (by decide)
  · exact (C9_is_irf_nonempty [] [] rfl).2 rfl

/-! ## get_config (comware.py lines 430-445) -/

/-- The dict returned by `get_config`. -/
structure Configs where
  startup : String
  running : String
  candidate : String
deriving DecidableEq, Repr

set_option linter.unusedVariables false in
/-- `ComwareDriver.get_config`, embedded with the device as the function
from a command to its raw text.  The source's `if full: pass` and
`if sanitized: pass` blocks do nothing, so the two flags are accepted but
never read; the second component records the commands sent, in order:
`display current-configuration` when `retrieve.lower()` is `"running"` or
`"all"`, then `display saved-configuration` when it is `"startup"` or
`"all"`. -/
def get_config (dev : String → String) (retrieve : String)
    (full sanitized : Bool) : Configs × List String :=
  let doRunning := pyLower retrieve == "running" || pyLower retrieve == "all"
  let doStartup := pyLower retrieve == "startup" || pyLower retrieve == "all"
  ({ startup := if doStartup then dev "display saved-configuration" else "",
     running := if doRunning then dev "display current-configuration" else "",
     candidate := "" },
   (if doRunning then ["display current-configuration"] else [])
     ++ (if doStartup then ["display saved-configuration"] else []))

/-! ## Claim theorem for get_config -/

/-- C10: two runs of `get_config` differing only in the `full` and
`sanitized` flags return identical results, and the commands sent depend
only on `retrieve` (not on the flags or the device): the running-config
command for `"running"` and `"all"`, the saved-config command for
`"startup"` and `"all"`. -/
theorem C10_get_config_flags_inert :
    (∀ (dev : String → String) (retrieve : String) (f1 s1 f2 s2 : Bool),
      get_config dev retrieve f1 s1 = get_config dev retrieve f2 s2)
    ∧ (∀ (dev dev' : String → String) (retrieve : String) (f1 s1 f2 s2 : Bool),
        (get_config dev retrieve f1 s1).2 = (get_config dev' retrieve f2 s2).2)
    ∧ (∀ (dev : String → String) (f s : Bool),
        (get_config dev "running" f s).2 = ["display current-configuration"])
    ∧ (∀ (dev : String → String) (f s : Bool),
        (get_config dev "startup" f s).2 = ["display saved-configuration"])
    ∧ (∀ (dev : String → String) (f s : Bool),
        (get_config dev "all" f s).2
          = ["display current-configuration", "display saved-configuration"])
    ∧ (∀ (dev : String → String) (f s : Bool),
        (get_config dev "none" f s).2 = []) :=
  ⟨fun _ _ _ _ _ _ => rfl, fun _ _ _ _ _ _ _ => rfl,
   fun _ _ _ => rfl, fun _ _ _ => rfl, fun _ _ _ => rfl, fun _ _ _ => rfl⟩

end Comware
